import Mathlib

/-!
Verification of the image relay pipeline (`relay/image_handler.go`) of the
QuantumNous new-api gateway.

The pipeline `ImageHelper` and the multipart helper `getImageCountAndSizeInfo`
are shallowly embedded as pure Lean functions.  External collaborators (deep
copy, model mapping, adapter capabilities, marshalling, parameter override,
HTTP transport, error classification, status remapping) are supplied through
an environment record `Env` whose fields give the outcome each collaborator
produces for the single request under consideration; the pipeline result
additionally records the observable effects the claims speak about (number of
quota-consumption calls, whether the adapter conversion capability was
invoked, whether the parameter override was applied, whether response
reconciliation was invoked, the transport body, the final stream flag).
-/

namespace NewAPI

/-- `dto.ImageRequest`: the fields the pipeline reads (model name after
mapping, image count `N`, size string, quality string). -/
structure ImageRequest where
  model : String
  n : Nat
  size : String
  quality : String
deriving DecidableEq, Repr

/-- `dto.Usage`: prompt-token and total-token counts. -/
structure Usage where
  promptTokens : Nat
  totalTokens : Nat
deriving DecidableEq, Repr

/-- Error codes of `types` used by the pipeline.  `invalidRequest` covers both
the inbound type-assertion failure and the deep-copy failure, exactly as the
source uses `types.ErrorCodeInvalidRequest` for both.  Errors produced by the
upstream error classifier carry `upstreamClassified`. -/
inductive ErrorCode where
  | invalidRequest
  | channelModelMappedError
  | invalidApiType
  | readRequestBodyFailed
  | convertRequestFailed
  | channelParamOverrideInvalid
  | doRequestFailed
  | upstreamClassified
deriving DecidableEq, Repr

/-- `types.NewAPIError`: error code, optional explicit HTTP status code
(`some` when built with `NewErrorWithStatusCode` / `NewOpenAIError`, `none`
for plain `NewError`), and whether `ErrOptionWithSkipRetry` was passed. -/
structure NewAPIError where
  code : ErrorCode
  statusCode : Option Nat
  skipRetry : Bool
deriving DecidableEq, Repr

/-- The raw upstream `*http.Response` as far as the pipeline inspects it:
status code and `Content-Type` header. -/
structure HttpResponse where
  statusCode : Nat
  contentType : String
deriving DecidableEq, Repr

/-- Result of `adaptor.ConvertImageRequest`: either a raw `*bytes.Buffer`
(used verbatim) or a structured payload that still has to be marshalled.
The structured payload is kept opaque as a `String` token. -/
inductive ConvertedRequest where
  | buffer (bytes : List Nat)
  | structured (payload : String)
deriving DecidableEq, Repr

/-- Environment of one `ImageHelper` invocation: the outcome of every
external collaborator the pipeline calls, plus the relevant request-scoped
configuration (`RelayInfo` fields, global settings, gin context data). -/
structure Env where
  /-- The type assertion `info.Request.(*dto.ImageRequest)`: `some` when the
  inbound request object is an `ImageRequest`, `none` otherwise. -/
  request : Option ImageRequest
  /-- Whether `common.DeepCopy` succeeds; on success the copy is structurally
  equal to the original. -/
  deepCopyOk : Bool
  /-- Modelled from the spec: `helper.ModelMappedHelper` (external) applies
  model-name mapping to the copied request; `modelMapOk` is whether it
  succeeds and `mappedModel` the model name it installs. -/
  modelMapOk : Bool
  mappedModel : String
  /-- Whether `GetAdaptor(info.ApiType)` returns a non-nil adapter. -/
  adaptorRegistered : Bool
  /-- `model_setting.GetGlobalSettings().PassThroughRequestEnabled`. -/
  passThroughGlobal : Bool
  /-- `info.ChannelSetting.PassThroughBodyEnabled`. -/
  passThroughChannel : Bool
  /-- `common.GetRequestBody(c)`: the raw inbound body, `none` on read error. -/
  rawBody : Option (List Nat)
  /-- `adaptor.ConvertImageRequest(c, info, *request)`. -/
  convertImageRequest : ImageRequest → Except String ConvertedRequest
  /-- `common.Marshal` on the structured converted payload; `none` on error. -/
  marshal : String → Option (List Nat)
  /-- `info.ParamOverride`. -/
  paramOverride : List (String × String)
  /-- `relaycommon.ApplyParamOverride(jsonData, info.ParamOverride)`. -/
  applyParamOverride : List Nat → List (String × String) → Option (List Nat)
  /-- `c.GetString("status_code_mapping")`. -/
  statusCodeMapping : String
  /-- `adaptor.DoRequest(c, info, requestBody)`: transport error, or a
  (possibly nil) raw response. -/
  doRequestResult : Except String (Option HttpResponse)
  /-- Modelled from the spec: `service.RelayErrorHandler` (external
  ErrorInterpreter) classifies a non-success raw response into an APIError. -/
  classifyError : HttpResponse → NewAPIError
  /-- Modelled from the spec: `service.ResetStatusCode` (external
  StatusRemapper) adjusts an APIError's status code per the configured
  mapping string. -/
  resetStatusCode : NewAPIError → String → NewAPIError
  /-- `adaptor.DoResponse(c, httpResp, info)`: an APIError or a Usage. -/
  doResponse : Option HttpResponse → Except NewAPIError Usage
  /-- `info.IsStream` before the pipeline runs. -/
  isStreamInitial : Bool
  /-- The inbound multipart form (`c.Request.MultipartForm` after
  materialization), as a field-name ↦ file-part-sizes association list;
  `none` when the request has no parsable multipart form. -/
  multipartForm : Option (List (String × List Nat))

/-- Observable outcome of one `ImageHelper` invocation. -/
structure PipelineResult where
  /-- The returned `*types.NewAPIError` (`none` = success, nil return). -/
  error : Option NewAPIError
  /-- Number of `postConsumeQuota` invocations. -/
  quotaCalls : Nat
  /-- The normalized usage record handed to `postConsumeQuota`. -/
  quotaUsage : Option Usage
  /-- The log descriptor handed to `postConsumeQuota`. -/
  quotaLogContent : Option String
  /-- Whether `adaptor.ConvertImageRequest` was invoked. -/
  convertInvoked : Bool
  /-- Whether `relaycommon.ApplyParamOverride` was applied to the body. -/
  overrideApplied : Bool
  /-- Whether `adaptor.DoResponse` was invoked. -/
  doResponseInvoked : Bool
  /-- The transport body handed to `adaptor.DoRequest` (`none` when the
  pipeline failed before building it). -/
  requestBody : Option (List Nat)
  /-- `info.IsStream` when the pipeline returns. -/
  isStream : Bool
  /-- Whether `service.ResetStatusCode` was applied to the returned error. -/
  remapApplied : Bool
deriving DecidableEq, Repr

/-- `helper.ModelMappedHelper`, modelled from the spec: on success it mutates
the copied request's model name and leaves the other fields alone. -/
def modelMappedHelper (env : Env) (request : ImageRequest) : Option ImageRequest :=
  if env.modelMapOk then some { request with model := env.mappedModel } else none

/-- The request value in scope after deep copy and model mapping succeed. -/
def mappedRequest (env : Env) (imageReq : ImageRequest) : ImageRequest :=
  { imageReq with model := env.mappedModel }

/-- A failure result: the given error, no quota consumption, with the listed
effect flags. -/
def failResult (e : NewAPIError) (convertInvoked overrideApplied doResponseInvoked : Bool)
    (body : Option (List Nat)) (isStream : Bool) (remapApplied : Bool) : PipelineResult :=
  { error := some e
    quotaCalls := 0
    quotaUsage := none
    quotaLogContent := none
    convertInvoked := convertInvoked
    overrideApplied := overrideApplied
    doResponseInvoked := doResponseInvoked
    requestBody := body
    isStream := isStream
    remapApplied := remapApplied }

/-- Outcome of the request-body construction (`ImageHelper` lines 53–89). -/
structure BodyOutcome where
  error : Option NewAPIError
  body : Option (List Nat)
  convertInvoked : Bool
  overrideApplied : Bool
deriving DecidableEq, Repr

/-- `ImageHelper` lines 53–89: passthrough branch reads the raw body
verbatim; otherwise the adapter converts the request, a raw byte buffer is
used as-is, and a structured payload is marshalled and then patched by the
parameter override when one is configured. -/
def buildRequestBody (env : Env) (request : ImageRequest) : BodyOutcome :=
  if env.passThroughGlobal || env.passThroughChannel then
    match env.rawBody with
    | none =>
        { error := some ⟨ErrorCode.readRequestBodyFailed, some 400, true⟩
          body := none, convertInvoked := false, overrideApplied := false }
    | some body =>
        { error := none, body := some body
          convertInvoked := false, overrideApplied := false }
  else
    match env.convertImageRequest request with
    | Except.error _ =>
        { error := some ⟨ErrorCode.convertRequestFailed, none, false⟩
          body := none, convertInvoked := true, overrideApplied := false }
    | Except.ok (ConvertedRequest.buffer b) =>
        { error := none, body := some b
          convertInvoked := true, overrideApplied := false }
    | Except.ok (ConvertedRequest.structured payload) =>
        match env.marshal payload with
        | none =>
            { error := some ⟨ErrorCode.convertRequestFailed, none, true⟩
              body := none, convertInvoked := true, overrideApplied := false }
        | some jsonData =>
            if env.paramOverride.length > 0 then
              match env.applyParamOverride jsonData env.paramOverride with
              | none =>
                  { error := some ⟨ErrorCode.channelParamOverrideInvalid, none, true⟩
                    body := none, convertInvoked := true, overrideApplied := true }
              | some patched =>
                  { error := none, body := some patched
                    convertInvoked := true, overrideApplied := true }
            else
              { error := none, body := some jsonData
                convertInvoked := true, overrideApplied := false }

/-- Go `strings.HasPrefix(s, pre)`: whether `pre` is a prefix of `s`
(character-wise on the string data; for the ASCII literals involved this
coincides with Go's byte-wise test). -/
def goStartsWith (s pre : String) : Bool :=
  pre.data.isPrefixOf s.data

/-- Go map lookup `mf.File[name]` on the association-list form model: the
file list of the first pair with that key, `[]` (Go `nil`) when absent. -/
def lookupField (mf : List (String × List Nat)) (name : String) : List Nat :=
  match mf.find? (fun p => p.1 == name) with
  | some p => p.2
  | none => []

/-- The third precedence branch of `getImageCountAndSizeInfo`: append the
parts of every field whose name starts with `image[` and that has at least
one part (iterating the whole map, starting from the empty slice left over
from the `image[]` lookup). -/
def arrayImageFiles (mf : List (String × List Nat)) : List Nat :=
  mf.foldl (fun acc p =>
    if goStartsWith p.1 "image[" && p.2.length > 0 then acc ++ p.2 else acc) []

/-- Go `%.1f` of `num / den`, modelled as one-decimal rounding of the exact
rational (the float detour of the source cannot change any claim here). -/
def formatOneDecimal (num den : Nat) : String :=
  let tenths := (num * 10 + den / 2) / den
  toString (tenths / 10) ++ "." ++ toString (tenths % 10)

/-- `getImageCountAndSizeInfo` lines 199–208: the size string stays empty
when the total size is 0, else `B` below 1024, `KB` below 1024·1024, `MB`
otherwise. -/
def formatSizeInfo (totalSize : Nat) : String :=
  if totalSize = 0 then ""
  else if totalSize < 1024 then toString totalSize ++ " B"
  else if totalSize < 1024 * 1024 then formatOneDecimal totalSize 1024 ++ " KB"
  else formatOneDecimal totalSize (1024 * 1024) ++ " MB"

/-- Total byte size of the matched file parts. -/
def totalFileSize (files : List Nat) : Nat :=
  files.foldl (· + ·) 0

/-- `getImageCountAndSizeInfo` (its core, given the materialized form):
precedence `image`, then `image[]`, then the union of all `image[`-prefixed
fields; `(0, "")` when nothing matches. -/
def getImageCountAndSizeInfo (mf : List (String × List Nat)) : Nat × String :=
  let f1 := lookupField mf "image"
  let imageFiles :=
    if f1.length ≠ 0 then f1
    else
      let f2 := lookupField mf "image[]"
      if f2.length ≠ 0 then f2
      else arrayImageFiles mf
  if imageFiles.length = 0 then (0, "")
  else (imageFiles.length, formatSizeInfo (totalFileSize imageFiles))

/-- `getImageCountAndSizeInfo` including the form-materialization guard: a
request without a parsable multipart form reports `(0, "")`. -/
def getImageCountAndSizeInfoCtx (env : Env) : Nat × String :=
  match env.multipartForm with
  | none => (0, "")
  | some mf => getImageCountAndSizeInfo mf

/-- `ImageHelper` lines 114–151: response reconciliation, usage fallback
normalization, quality/log-descriptor derivation, quota consumption. -/
def reconcileAndAccount (env : Env) (request : ImageRequest) (bo : BodyOutcome)
    (isStream : Bool) (httpResp : Option HttpResponse) : PipelineResult :=
  match env.doResponse httpResp with
  | Except.error e =>
      failResult (env.resetStatusCode e env.statusCodeMapping)
        bo.convertInvoked bo.overrideApplied true bo.body isStream true
  | Except.ok usage0 =>
      let u1 := if usage0.totalTokens = 0 then { usage0 with totalTokens := request.n } else usage0
      let u2 := if u1.promptTokens = 0 then { u1 with promptTokens := request.n } else u1
      let quality := if request.quality = "hd" then "hd" else "standard"
      let logContent :=
        if request.size.length > 0 then
          let base := "大小 " ++ request.size ++ ", 品质 " ++ quality ++ ", 张数 " ++ toString request.n
          let meta := getImageCountAndSizeInfoCtx env
          if meta.1 > 0 then
            let s := base ++ ", 输入图片 " ++ toString meta.1 ++ " 张"
            if meta.2 ≠ "" then s ++ " (" ++ meta.2 ++ ")" else s
          else base
        else ""
      { error := none
        quotaCalls := 1
        quotaUsage := some u2
        quotaLogContent := some logContent
        convertInvoked := bo.convertInvoked
        overrideApplied := bo.overrideApplied
        doResponseInvoked := true
        requestBody := bo.body
        isStream := isStream
        remapApplied := false }

/-- `ImageHelper` lines 91–151: transport invocation, stream-flag intake,
non-success classification with status remapping, then reconciliation and
accounting.  `bo` is the outcome of the request-body construction. -/
def transportAndBeyond (env : Env) (request : ImageRequest) (bo : BodyOutcome) : PipelineResult :=
  match bo.error with
  | some e =>
      failResult e bo.convertInvoked bo.overrideApplied false bo.body
        env.isStreamInitial false
  | none =>
    match env.doRequestResult with
    | Except.error _ =>
        failResult ⟨ErrorCode.doRequestFailed, some 500, false⟩
          bo.convertInvoked bo.overrideApplied false bo.body env.isStreamInitial false
    | Except.ok respOpt =>
      match respOpt with
      | some httpResp =>
          let isStream := env.isStreamInitial ||
            goStartsWith httpResp.contentType "text/event-stream"
          if httpResp.statusCode ≠ 200 then
            failResult
              (env.resetStatusCode (env.classifyError httpResp) env.statusCodeMapping)
              bo.convertInvoked bo.overrideApplied false bo.body isStream true
          else
            reconcileAndAccount env request bo isStream (some httpResp)
      | none =>
          reconcileAndAccount env request bo env.isStreamInitial none

/-- The value of `info.IsStream` after response intake (line 105): forced to
true when the raw response's content type indicates an event stream, left at
its prior value when the response is nil. -/
def streamAfterIntake (env : Env) (respOpt : Option HttpResponse) : Bool :=
  match respOpt with
  | some r => env.isStreamInitial || goStartsWith r.contentType "text/event-stream"
  | none => env.isStreamInitial

/-- `ImageHelper` (relay/image_handler.go lines 24–152). -/
def ImageHelper (env : Env) : PipelineResult :=
  match env.request with
  | none =>
      failResult ⟨ErrorCode.invalidRequest, some 400, true⟩ false false false none
        env.isStreamInitial false
  | some imageReq =>
    if env.deepCopyOk then
      match modelMappedHelper env imageReq with
      | none =>
          failResult ⟨ErrorCode.channelModelMappedError, none, true⟩ false false false none
            env.isStreamInitial false
      | some request =>
        if env.adaptorRegistered then
          transportAndBeyond env request (buildRequestBody env request)
        else
          failResult ⟨ErrorCode.invalidApiType, none, true⟩ false false false none
            env.isStreamInitial false
    else
      failResult ⟨ErrorCode.invalidRequest, none, true⟩ false false false none
        env.isStreamInitial false

/-- The image-metadata extraction written directly from the specified
precedence, for comparison with `getImageCountAndSizeInfo`: the field
literally named `image` when it has at least one part, else the field
literally named `image[]` when it has at least one part, else the merged
parts of all fields whose name begins with `image[`, else count 0 and an
empty size string. -/
def imageMetadataSpec (mf : List (String × List Nat)) : Nat × String :=
  let b1 := lookupField mf "image"
  if b1.length > 0 then (b1.length, formatSizeInfo (totalFileSize b1))
  else
    let b2 := lookupField mf "image[]"
    if b2.length > 0 then (b2.length, formatSizeInfo (totalFileSize b2))
    else
      let merged := ((mf.filter fun p => goStartsWith p.1 "image[").map Prod.snd).flatten
      if merged.length > 0 then (merged.length, formatSizeInfo (totalFileSize merged))
      else (0, "")

/-- A baseline concrete environment: every collaborator succeeds, the
adapter converts to a structured payload, upstream answers 200, and the
adapter reports zero usage. -/
def baseEnv : Env :=
  { request := some ⟨"img-model", 2, "1024x1024", "hd"⟩
    deepCopyOk := true
    modelMapOk := true
    mappedModel := "img-model-mapped"
    adaptorRegistered := true
    passThroughGlobal := false
    passThroughChannel := false
    rawBody := some [1, 2, 3]
    convertImageRequest := fun _ => Except.ok (ConvertedRequest.structured "payload")
    marshal := fun _ => some [10, 20]
    paramOverride := []
    applyParamOverride := fun b _ => some (b ++ [99])
    statusCodeMapping := "m"
    doRequestResult := Except.ok (some ⟨200, "application/json"⟩)
    classifyError := fun r => ⟨ErrorCode.upstreamClassified, some r.statusCode, false⟩
    resetStatusCode := fun e _ => { e with statusCode := some 418 }
    doResponse := fun _ => Except.ok ⟨0, 0⟩
    isStreamInitial := false
    multipartForm := none }

/-- The nine locally-constructed error values of the pipeline (lines 32, 37,
44, 49, 58, 64, 73, 80, 100): all built before any upstream response exists,
hence never passed through the status remapper. -/
def locallyConstructedErrors : List NewAPIError :=
  [⟨ErrorCode.invalidRequest, some 400, true⟩,
   ⟨ErrorCode.invalidRequest, none, true⟩,
   ⟨ErrorCode.channelModelMappedError, none, true⟩,
   ⟨ErrorCode.invalidApiType, none, true⟩,
   ⟨ErrorCode.readRequestBodyFailed, some 400, true⟩,
   ⟨ErrorCode.convertRequestFailed, none, false⟩,
   ⟨ErrorCode.convertRequestFailed, none, true⟩,
   ⟨ErrorCode.channelParamOverrideInvalid, none, true⟩,
   ⟨ErrorCode.doRequestFailed, some 500, false⟩]

/-- Concrete environment where the adapter reports a zero prompt-token count
and 5 total tokens for a request with `N = 2`. -/
def envUsageFallback : Env := { baseEnv with doResponse := fun _ => Except.ok ⟨0, 5⟩ }

/-- Concrete environment with global passthrough enabled. -/
def envPassthrough : Env := { baseEnv with passThroughGlobal := true }

/-- Concrete environment with a non-empty parameter override set. -/
def envOverride : Env := { baseEnv with paramOverride := [("k", "v")] }

/-- Concrete environment whose upstream answers with status 500. -/
def envUpstream500 : Env :=
  { baseEnv with doRequestResult := Except.ok (some ⟨500, "application/json"⟩) }

/-- Concrete environment whose adapter conversion capability fails. -/
def envConvertFail : Env :=
  { baseEnv with convertImageRequest := fun _ => Except.error "conversion failed" }

/-- Concrete environment whose payload serialization (`common.Marshal`)
fails. -/
def envMarshalFail : Env := { baseEnv with marshal := fun _ => none }

/-- Concrete environment where model mapping fails and no adapter is
registered for the API type. -/
def envNoAdaptorMapFail : Env := { baseEnv with modelMapOk := false, adaptorRegistered := false }

/-- Concrete environment where everything up to the registry lookup succeeds
but no adapter is registered. -/
def envNoAdaptor : Env := { baseEnv with adaptorRegistered := false }

/-- Concrete environment whose upstream responds with an event-stream
content type. -/
def envEventStream : Env :=
  { baseEnv with doRequestResult := Except.ok (some ⟨200, "text/event-stream; charset=utf-8"⟩) }

/-- Concrete environment whose adapter conversion yields a raw byte buffer
while a non-empty parameter override set is configured. -/
def envBufferBody : Env :=
  { baseEnv with
      convertImageRequest := fun _ => Except.ok (ConvertedRequest.buffer [7, 8])
      paramOverride := [("k", "v")] }

/-! ## Theorems -/

/-- Reduction of `ImageHelper` to the transport stage once the inbound type
assertion, the deep copy, the model mapping and the adapter lookup have all
succeeded. -/
theorem imageHelper_main_path (env : Env) (imageReq : ImageRequest)
    (hreq : env.request = some imageReq)
    (hcopy : env.deepCopyOk = true)
    (hmap : env.modelMapOk = true)
    (hreg : env.adaptorRegistered = true) :
    ImageHelper env =
      transportAndBeyond env (mappedRequest env imageReq)
        (buildRequestBody env (mappedRequest env imageReq)) := by
  unfold ImageHelper
  rw [hreq]
  simp [hcopy, hreg, modelMappedHelper, hmap, mappedRequest]

/-- Reduction of the transport stage to reconciliation and accounting when
the body was built, the transport call succeeded and the response (when
non-nil) has status 200. -/
theorem transportAndBeyond_success (env : Env) (request : ImageRequest)
    (bo : BodyOutcome) (respOpt : Option HttpResponse)
    (hbo : bo.error = none)
    (hdo : env.doRequestResult = Except.ok respOpt)
    (hstatus : ∀ r, respOpt = some r → r.statusCode = 200) :
    transportAndBeyond env request bo =
      reconcileAndAccount env request bo (streamAfterIntake env respOpt) respOpt := by
  unfold transportAndBeyond
  rw [hbo, hdo]
  cases respOpt with
  | none => rfl
  | some r =>
      have h200 := hstatus r rfl
      simp [streamAfterIntake, h200]

/-- C1: quota consumption is triggered exactly once per successful pipeline
execution and zero times on every failure path: the number of
`postConsumeQuota` calls is 1 when `ImageHelper` returns nil and 0 when it
returns an error, over all environments (hence over all ten error kinds). -/
theorem quota_consumed_iff_success (env : Env) :
    (ImageHelper env).quotaCalls = cond (ImageHelper env).error.isSome 0 1 := by
  unfold ImageHelper transportAndBeyond reconcileAndAccount
  repeat' split
  all_goals rfl

/-- Generalized accumulator form of the `image[`-prefix scan: the fold
appends exactly the parts of the prefix-matching fields (empty part lists
contribute nothing, so the `len(files) > 0` filter of the source is
invisible in the result). -/
theorem foldl_prefix_files (mf : List (String × List Nat)) (acc : List Nat) :
    mf.foldl (fun acc p =>
        if goStartsWith p.1 "image[" && p.2.length > 0 then acc ++ p.2 else acc) acc
      = acc ++ ((mf.filter fun p => goStartsWith p.1 "image[").map Prod.snd).flatten := by
  induction mf generalizing acc with
  | nil => simp
  | cons hd tl ih =>
      simp only [List.foldl_cons, List.filter_cons]
      rw [ih]
      by_cases h1 : goStartsWith hd.1 "image["
      · by_cases h2 : hd.2.length > 0
        · simp [h1, h2, List.append_assoc]
        · have hnil : hd.2 = [] := List.eq_nil_of_length_eq_zero (Nat.eq_zero_of_not_pos h2)
          simp [h1, hnil]
      · simp [h1]

/-- The prefix scan equals the flattened part lists of the prefix fields. -/
theorem arrayImageFiles_eq (mf : List (String × List Nat)) :
    arrayImageFiles mf
      = ((mf.filter fun p => goStartsWith p.1 "image[").map Prod.snd).flatten := by
  have h := foldl_prefix_files mf []
  simpa [arrayImageFiles] using h

/-- C8: the multipart image-metadata extraction implements exactly the
specified first-match precedence — `image` when it has a part, else
`image[]` when it has a part, else the merged parts of all `image[`-prefixed
fields, else count 0 and an empty size string. -/
theorem image_metadata_precedence (mf : List (String × List Nat)) :
    getImageCountAndSizeInfo mf = imageMetadataSpec mf := by
  unfold getImageCountAndSizeInfo imageMetadataSpec
  by_cases h1 : (lookupField mf "image").length = 0 <;>
    by_cases h2 : (lookupField mf "image[]").length = 0 <;>
      simp [h1, h2, Nat.pos_iff_ne_zero, arrayImageFiles_eq, ite_not]

/-- In passthrough mode the body construction only reads the raw inbound
body: no conversion, no override. -/
theorem buildRequestBody_passthrough (env : Env) (request : ImageRequest)
    (hpt : (env.passThroughGlobal || env.passThroughChannel) = true) :
    buildRequestBody env request =
      match env.rawBody with
      | none => ⟨some ⟨ErrorCode.readRequestBodyFailed, some 400, true⟩, none, false, false⟩
      | some body => ⟨none, some body, false, false⟩ := by
  unfold buildRequestBody
  rw [hpt]
  simp

/-- With passthrough disabled and a structured converted payload that
marshals to `jsonData`, the body construction reduces to the override
application on `jsonData` when an override set is configured. -/
theorem buildRequestBody_structured_override (env : Env) (request : ImageRequest)
    (payload : String) (jsonData : List Nat)
    (hpt : (env.passThroughGlobal || env.passThroughChannel) = false)
    (hconv : env.convertImageRequest request = Except.ok (ConvertedRequest.structured payload))
    (hmar : env.marshal payload = some jsonData)
    (hov : env.paramOverride.length > 0) :
    buildRequestBody env request =
      match env.applyParamOverride jsonData env.paramOverride with
      | none => ⟨some ⟨ErrorCode.channelParamOverrideInvalid, none, true⟩, none, true, true⟩
      | some patched => ⟨none, some patched, true, true⟩ := by
  unfold buildRequestBody
  rw [hpt]
  simp only [Bool.false_eq_true, if_false, hconv]
  rw [hmar]
  simp [hov]

/-- With passthrough disabled and a raw byte-buffer converted payload, the
body construction uses the buffer as-is and never touches the override. -/
theorem buildRequestBody_buffer (env : Env) (request : ImageRequest) (b : List Nat)
    (hpt : (env.passThroughGlobal || env.passThroughChannel) = false)
    (hconv : env.convertImageRequest request = Except.ok (ConvertedRequest.buffer b)) :
    buildRequestBody env request = ⟨none, some b, true, false⟩ := by
  unfold buildRequestBody
  rw [hpt, hconv]
  simp

/-- The transport stage and everything after it preserve the effect flags
and the body recorded by the body construction. -/
theorem transportAndBeyond_effects (env : Env) (request : ImageRequest) (bo : BodyOutcome) :
    (transportAndBeyond env request bo).convertInvoked = bo.convertInvoked ∧
    (transportAndBeyond env request bo).overrideApplied = bo.overrideApplied ∧
    (transportAndBeyond env request bo).requestBody = bo.body := by
  unfold transportAndBeyond reconcileAndAccount
  repeat' split
  all_goals simp [failResult]

/-- A body-construction error is returned unchanged by the transport stage. -/
theorem transportAndBeyond_error (env : Env) (request : ImageRequest)
    (bo : BodyOutcome) (e : NewAPIError) (h : bo.error = some e) :
    (transportAndBeyond env request bo).error = some e := by
  unfold transportAndBeyond
  rw [h]
  rfl

/-- Once a non-nil raw response is obtained, the final stream flag is the
prior flag or-ed with the event-stream content-type test, on every
subsequent path. -/
theorem transportAndBeyond_stream (env : Env) (request : ImageRequest)
    (bo : BodyOutcome) (r : HttpResponse)
    (hbo : bo.error = none) (hdo : env.doRequestResult = Except.ok (some r)) :
    (transportAndBeyond env request bo).isStream =
      (env.isStreamInitial || goStartsWith r.contentType "text/event-stream") := by
  unfold transportAndBeyond reconcileAndAccount
  rw [hbo, hdo]
  repeat' split
  all_goals simp_all [failResult]

/-- C2: on every successful response the usage fallback normalization is
applied independently per field — a zero total-token count is replaced by
the request's image count `N`, a zero prompt-token count is replaced by `N`,
and non-zero fields are left unchanged. -/
theorem usage_fallback_normalization (env : Env) (imageReq : ImageRequest)
    (respOpt : Option HttpResponse) (u : Usage)
    (hreq : env.request = some imageReq)
    (hcopy : env.deepCopyOk = true)
    (hmap : env.modelMapOk = true)
    (hreg : env.adaptorRegistered = true)
    (hbody : (buildRequestBody env (mappedRequest env imageReq)).error = none)
    (hdo : env.doRequestResult = Except.ok respOpt)
    (hstatus : ∀ r, respOpt = some r → r.statusCode = 200)
    (hresp : env.doResponse respOpt = Except.ok u) :
    (ImageHelper env).quotaUsage = some
      { promptTokens := if u.promptTokens = 0 then imageReq.n else u.promptTokens
        totalTokens := if u.totalTokens = 0 then imageReq.n else u.totalTokens } := by
  rw [imageHelper_main_path env imageReq hreq hcopy hmap hreg,
    transportAndBeyond_success env _ _ respOpt hbody hdo hstatus]
  unfold reconcileAndAccount
  rw [hresp]
  cases u with
  | mk p t =>
      by_cases ht : t = 0 <;> by_cases hp : p = 0 <;>
        simp [ht, hp, mappedRequest]

/-- Witness for C2: with the adapter reporting 0 prompt tokens and 5 total
tokens for a request with `N = 2`, billing receives prompt 2 and total 5. -/
theorem usage_fallback_normalization_witness :
    (ImageHelper envUsageFallback).quotaUsage = some ⟨2, 5⟩ := by
  have h := usage_fallback_normalization envUsageFallback
    ⟨"img-model", 2, "1024x1024", "hd"⟩ (some ⟨200, "application/json"⟩) ⟨0, 5⟩
    rfl rfl rfl rfl rfl rfl (by intro r hr; cases hr; rfl) rfl
  simpa using h

/-- C3: with passthrough mode enabled (global or per-channel flag), the
transport body is byte-for-byte the raw inbound body, the adapter conversion
capability is never invoked, no parameter override is applied, and a failure
to read the raw body fails with `ReadRequestBodyFailed`. -/
theorem passthrough_body_verbatim (env : Env) (imageReq : ImageRequest)
    (hreq : env.request = some imageReq)
    (hcopy : env.deepCopyOk = true)
    (hmap : env.modelMapOk = true)
    (hreg : env.adaptorRegistered = true)
    (hpt : (env.passThroughGlobal || env.passThroughChannel) = true) :
    ((ImageHelper env).convertInvoked = false ∧ (ImageHelper env).overrideApplied = false) ∧
    (∀ b, env.rawBody = some b → (ImageHelper env).requestBody = some b) ∧
    (env.rawBody = none →
      (ImageHelper env).error = some ⟨ErrorCode.readRequestBodyFailed, some 400, true⟩) := by
  rw [imageHelper_main_path env imageReq hreq hcopy hmap hreg]
  have hb := buildRequestBody_passthrough env (mappedRequest env imageReq) hpt
  obtain ⟨hc, ho, hr⟩ := transportAndBeyond_effects env (mappedRequest env imageReq)
    (buildRequestBody env (mappedRequest env imageReq))
  refine ⟨⟨?_, ?_⟩, ?_, ?_⟩
  · rw [hc, hb]; cases env.rawBody <;> rfl
  · rw [ho, hb]; cases env.rawBody <;> rfl
  · intro b hbb
    rw [hr, hb, hbb]
  · intro hnone
    exact transportAndBeyond_error env _ _ _ (by rw [hb, hnone])

/-- Witness for C3: with global passthrough on and raw body `[1, 2, 3]`, the
transport body is `[1, 2, 3]` and conversion was never invoked. -/
theorem passthrough_body_verbatim_witness :
    (ImageHelper envPassthrough).requestBody = some [1, 2, 3] ∧
      (ImageHelper envPassthrough).convertInvoked = false := by
  have h := passthrough_body_verbatim envPassthrough ⟨"img-model", 2, "1024x1024", "hd"⟩
    rfl rfl rfl rfl rfl
  exact ⟨h.2.1 [1, 2, 3] rfl, h.1.1⟩

/-- C4: with passthrough disabled and a non-empty override set, the override
is applied to the serialized byte form strictly after serialization (the
transport body is the override function's output on the marshalled bytes),
and an override-application failure fails with `ChannelParamOverrideInvalid`
carrying the retry-skip flag. -/
theorem override_applied_post_serialization (env : Env) (imageReq : ImageRequest)
    (payload : String) (jsonData : List Nat)
    (hreq : env.request = some imageReq)
    (hcopy : env.deepCopyOk = true)
    (hmap : env.modelMapOk = true)
    (hreg : env.adaptorRegistered = true)
    (hpt : (env.passThroughGlobal || env.passThroughChannel) = false)
    (hconv : env.convertImageRequest (mappedRequest env imageReq)
      = Except.ok (ConvertedRequest.structured payload))
    (hmar : env.marshal payload = some jsonData)
    (hov : env.paramOverride.length > 0) :
    (∀ patched, env.applyParamOverride jsonData env.paramOverride = some patched →
      (ImageHelper env).requestBody = some patched ∧
        (ImageHelper env).overrideApplied = true) ∧
    (env.applyParamOverride jsonData env.paramOverride = none →
      (ImageHelper env).error = some ⟨ErrorCode.channelParamOverrideInvalid, none, true⟩) := by
  rw [imageHelper_main_path env imageReq hreq hcopy hmap hreg]
  have hb := buildRequestBody_structured_override env (mappedRequest env imageReq)
    payload jsonData hpt hconv hmar hov
  obtain ⟨hc, ho, hr⟩ := transportAndBeyond_effects env (mappedRequest env imageReq)
    (buildRequestBody env (mappedRequest env imageReq))
  constructor
  · intro patched hpatch
    constructor
    · rw [hr, hb, hpatch]
    · rw [ho, hb, hpatch]
  · intro hnone
    exact transportAndBeyond_error env _ _ _ (by rw [hb, hnone])

/-- Witness for C4: the override set `[("k","v")]` is applied to the
marshalled bytes `[10, 20]`, producing the transport body `[10, 20, 99]` —
a byte the adapter payload itself never contained. -/
theorem override_applied_post_serialization_witness :
    (ImageHelper envOverride).requestBody = some [10, 20, 99] ∧
      (ImageHelper envOverride).overrideApplied = true := by
  have h := override_applied_post_serialization envOverride
    ⟨"img-model", 2, "1024x1024", "hd"⟩ "payload" [10, 20]
    rfl rfl rfl rfl rfl rfl rfl (by decide)
  exact h.1 [10, 20, 99] rfl

/-- Every error produced by the body construction is one of the
locally-constructed error values. -/
theorem buildRequestBody_error_mem (env : Env) (request : ImageRequest) (e : NewAPIError)
    (h : (buildRequestBody env request).error = some e) :
    e ∈ locallyConstructedErrors := by
  unfold buildRequestBody at h
  repeat' split at h
  all_goals simp_all [locallyConstructedErrors]

/-- C5: a non-success upstream status yields the classifier's error with the
status-code remapping applied and response reconciliation never invoked; a
reconciliation failure gets the same remapping; and whenever the remapper
was not applied, the pipeline either succeeded or returned one of the nine
locally-constructed (pre-classified) error values. -/
theorem upstream_error_classification (env : Env) :
    (∀ imageReq r, env.request = some imageReq → env.deepCopyOk = true →
      env.modelMapOk = true → env.adaptorRegistered = true →
      (buildRequestBody env (mappedRequest env imageReq)).error = none →
      env.doRequestResult = Except.ok (some r) → r.statusCode ≠ 200 →
      (ImageHelper env).error
          = some (env.resetStatusCode (env.classifyError r) env.statusCodeMapping) ∧
        (ImageHelper env).doResponseInvoked = false ∧
        (ImageHelper env).remapApplied = true) ∧
    (∀ imageReq respOpt e, env.request = some imageReq → env.deepCopyOk = true →
      env.modelMapOk = true → env.adaptorRegistered = true →
      (buildRequestBody env (mappedRequest env imageReq)).error = none →
      env.doRequestResult = Except.ok respOpt →
      (∀ r, respOpt = some r → r.statusCode = 200) →
      env.doResponse respOpt = Except.error e →
      (ImageHelper env).error = some (env.resetStatusCode e env.statusCodeMapping) ∧
        (ImageHelper env).remapApplied = true) ∧
    ((ImageHelper env).remapApplied = false →
      (ImageHelper env).error = none ∨
        ∃ e, (ImageHelper env).error = some e ∧ e ∈ locallyConstructedErrors) := by
  refine ⟨?_, ?_, ?_⟩
  · intro imageReq r hreq hcopy hmap hreg hbody hdo h200
    rw [imageHelper_main_path env imageReq hreq hcopy hmap hreg]
    unfold transportAndBeyond
    rw [hbody, hdo]
    simp [h200, failResult]
  · intro imageReq respOpt e hreq hcopy hmap hreg hbody hdo hstatus hresp
    rw [imageHelper_main_path env imageReq hreq hcopy hmap hreg,
      transportAndBeyond_success env _ _ respOpt hbody hdo hstatus]
    unfold reconcileAndAccount
    rw [hresp]
    exact ⟨rfl, rfl⟩
  · unfold ImageHelper transportAndBeyond reconcileAndAccount
    repeat' split
    all_goals intro hre
    any_goals (simp only [failResult] at hre)
    any_goals exact Bool.noConfusion hre
    any_goals (left; rfl)
    all_goals right
    all_goals refine ⟨_, rfl, ?_⟩
    all_goals
      try (rename_i e heq
           exact buildRequestBody_error_mem _ _ _ heq)
    all_goals simp [locallyConstructedErrors]

/-- Witness for C5: upstream status 500 yields the classified error with its
status remapped to 418 by the configured remapper, and reconciliation was
never invoked. -/
theorem upstream_error_classification_witness :
    (ImageHelper envUpstream500).error
        = some ⟨ErrorCode.upstreamClassified, some 418, false⟩ ∧
      (ImageHelper envUpstream500).doResponseInvoked = false := by
  have h := (upstream_error_classification envUpstream500).1
    ⟨"img-model", 2, "1024x1024", "hd"⟩ ⟨500, "application/json"⟩
    rfl rfl rfl rfl rfl rfl (by decide)
  exact ⟨h.1, h.2.1⟩

/-- C9: once a non-nil raw response is obtained, an event-stream content
type forces the context's stream flag to true regardless of its prior value,
and a stream flag that was already true is never cleared. -/
theorem stream_flag_forced_by_content_type (env : Env) (imageReq : ImageRequest)
    (r : HttpResponse)
    (hreq : env.request = some imageReq)
    (hcopy : env.deepCopyOk = true)
    (hmap : env.modelMapOk = true)
    (hreg : env.adaptorRegistered = true)
    (hbody : (buildRequestBody env (mappedRequest env imageReq)).error = none)
    (hdo : env.doRequestResult = Except.ok (some r)) :
    (goStartsWith r.contentType "text/event-stream" = true →
      (ImageHelper env).isStream = true) ∧
    (env.isStreamInitial = true → (ImageHelper env).isStream = true) := by
  rw [imageHelper_main_path env imageReq hreq hcopy hmap hreg,
    transportAndBeyond_stream env (mappedRequest env imageReq) _ r hbody hdo]
  constructor
  · intro h
    simp [h]
  · intro h
    simp [h]

/-- Witness for C9: the client did not request streaming, yet a
`text/event-stream; charset=utf-8` upstream response forces the flag on. -/
theorem stream_flag_forced_by_content_type_witness :
    envEventStream.isStreamInitial = false ∧ (ImageHelper envEventStream).isStream = true := by
  have h := (stream_flag_forced_by_content_type envEventStream
    ⟨"img-model", 2, "1024x1024", "hd"⟩ ⟨200, "text/event-stream; charset=utf-8"⟩
    rfl rfl rfl rfl rfl rfl).1 (by decide)
  exact ⟨rfl, h⟩

/-- C10: with passthrough disabled, a raw byte-buffer conversion result is
used as the transport body as-is and the parameter override is never
applied, even when the override set is non-empty. -/
theorem buffer_body_bypasses_override (env : Env) (imageReq : ImageRequest) (b : List Nat)
    (hreq : env.request = some imageReq)
    (hcopy : env.deepCopyOk = true)
    (hmap : env.modelMapOk = true)
    (hreg : env.adaptorRegistered = true)
    (hpt : (env.passThroughGlobal || env.passThroughChannel) = false)
    (hconv : env.convertImageRequest (mappedRequest env imageReq)
      = Except.ok (ConvertedRequest.buffer b)) :
    (ImageHelper env).requestBody = some b ∧
      (ImageHelper env).overrideApplied = false := by
  rw [imageHelper_main_path env imageReq hreq hcopy hmap hreg]
  have hb := buildRequestBody_buffer env (mappedRequest env imageReq) b hpt hconv
  obtain ⟨hc, ho, hr⟩ := transportAndBeyond_effects env (mappedRequest env imageReq)
    (buildRequestBody env (mappedRequest env imageReq))
  constructor
  · rw [hr, hb]
  · rw [ho, hb]

/-- Witness for C10: the adapter yields the raw buffer `[7, 8]` while the
override set `[("k","v")]` is non-empty; the body is `[7, 8]` and the
override was never applied. -/
theorem buffer_body_bypasses_override_witness :
    envBufferBody.paramOverride.length > 0 ∧
      (ImageHelper envBufferBody).requestBody = some [7, 8] ∧
      (ImageHelper envBufferBody).overrideApplied = false := by
  have h := buffer_body_bypasses_override envBufferBody
    ⟨"img-model", 2, "1024x1024", "hd"⟩ [7, 8] rfl rfl rfl rfl rfl rfl
  exact ⟨by decide, h.1, h.2⟩

/-- Counterexample for C6 as stated: when the adapter's conversion
capability fails, the returned `ConvertRequestFailed` error does not carry
the retry-skip flag (line 64 builds it without `ErrOptionWithSkipRetry`,
unlike the serialization failure at line 73), so the error is not
"non-retryable in both cases". -/
theorem convert_failure_retry_flag_counterexample :
    (ImageHelper envConvertFail).error
        = some ⟨ErrorCode.convertRequestFailed, none, false⟩ ∧
      Option.map NewAPIError.skipRetry (ImageHelper envConvertFail).error = some false := by
  exact ⟨rfl, rfl⟩

/-- C6 amended: adapter-conversion failure and serialization failure both
fail with `ConvertRequestFailed`, but only the serialization failure carries
the retry-skip flag; the conversion failure is constructed without it. -/
theorem convert_and_marshal_failure_codes (env : Env) (imageReq : ImageRequest)
    (hreq : env.request = some imageReq)
    (hcopy : env.deepCopyOk = true)
    (hmap : env.modelMapOk = true)
    (hreg : env.adaptorRegistered = true)
    (hpt : (env.passThroughGlobal || env.passThroughChannel) = false) :
    (∀ msg, env.convertImageRequest (mappedRequest env imageReq) = Except.error msg →
      (ImageHelper env).error = some ⟨ErrorCode.convertRequestFailed, none, false⟩) ∧
    (∀ payload, env.convertImageRequest (mappedRequest env imageReq)
        = Except.ok (ConvertedRequest.structured payload) →
      env.marshal payload = none →
      (ImageHelper env).error = some ⟨ErrorCode.convertRequestFailed, none, true⟩) := by
  rw [imageHelper_main_path env imageReq hreq hcopy hmap hreg]
  constructor
  · intro msg hconv
    refine transportAndBeyond_error env _ _ _ ?_
    unfold buildRequestBody
    rw [hpt]
    simp [hconv]
  · intro payload hconv hmar
    refine transportAndBeyond_error env _ _ _ ?_
    unfold buildRequestBody
    rw [hpt]
    simp only [Bool.false_eq_true, if_false, hconv]
    rw [hmar]

/-- Witness for the amended C6: a failing conversion yields the flag-less
`ConvertRequestFailed`, a failing serialization yields the flagged one. -/
theorem convert_and_marshal_failure_codes_witness :
    (ImageHelper envConvertFail).error
        = some ⟨ErrorCode.convertRequestFailed, none, false⟩ ∧
      (ImageHelper envMarshalFail).error
        = some ⟨ErrorCode.convertRequestFailed, none, true⟩ := by
  constructor
  · exact (convert_and_marshal_failure_codes envConvertFail
      ⟨"img-model", 2, "1024x1024", "hd"⟩ rfl rfl rfl rfl rfl).1 "conversion failed" rfl
  · exact (convert_and_marshal_failure_codes envMarshalFail
      ⟨"img-model", 2, "1024x1024", "hd"⟩ rfl rfl rfl rfl rfl).2 "payload" rfl rfl

/-- Counterexample for C7 as stated: with no adapter registered for the API
type and a failing model mapping, the pipeline fails with
`ChannelModelMappedError`, not `InvalidAPIType` — the registry lookup (line
47) runs after the deep copy (line 35) and the model mapping (line 42), so
such a request can fail with an earlier builder error. -/
theorem registry_lookup_order_counterexample :
    envNoAdaptorMapFail.adaptorRegistered = false ∧
      (ImageHelper envNoAdaptorMapFail).error
          = some ⟨ErrorCode.channelModelMappedError, none, true⟩ ∧
      (ImageHelper envNoAdaptorMapFail).error
          ≠ some ⟨ErrorCode.invalidApiType, none, true⟩ := by
  refine ⟨rfl, rfl, ?_⟩
  decide

/-- C7 amended: the stages run in the order isolation copy, model mapping,
registry lookup, body construction, transport, reconciliation.  A request
whose API type has no registered adapter fails with `InvalidAPIType` before
conversion, transport, reconciliation or quota consumption — provided the
copy and the mapping succeed; when the copy or the mapping fails, the
pipeline returns that earlier error even though no adapter is registered. -/
theorem registry_lookup_after_mapping (env : Env) :
    (∀ imageReq, env.request = some imageReq → env.deepCopyOk = true →
      env.modelMapOk = true → env.adaptorRegistered = false →
      (ImageHelper env).error = some ⟨ErrorCode.invalidApiType, none, true⟩ ∧
        (ImageHelper env).convertInvoked = false ∧
        (ImageHelper env).requestBody = none ∧
        (ImageHelper env).doResponseInvoked = false ∧
        (ImageHelper env).quotaCalls = 0) ∧
    (∀ imageReq, env.request = some imageReq → env.deepCopyOk = false →
      (ImageHelper env).error = some ⟨ErrorCode.invalidRequest, none, true⟩) ∧
    (∀ imageReq, env.request = some imageReq → env.deepCopyOk = true →
      env.modelMapOk = false →
      (ImageHelper env).error = some ⟨ErrorCode.channelModelMappedError, none, true⟩) := by
  refine ⟨?_, ?_, ?_⟩
  · intro imageReq hreq hcopy hmap hreg
    unfold ImageHelper
    rw [hreq]
    simp [hcopy, hreg, modelMappedHelper, hmap, failResult]
  · intro imageReq hreq hcopy
    unfold ImageHelper
    rw [hreq]
    simp [hcopy, failResult]
  · intro imageReq hreq hcopy hmap
    unfold ImageHelper
    rw [hreq]
    simp [hcopy, modelMappedHelper, hmap, failResult]

/-- Witness for the amended C7: with copy and mapping succeeding and no
adapter registered, the pipeline fails with `InvalidAPIType` and conversion
was never attempted. -/
theorem registry_lookup_after_mapping_witness :
    (ImageHelper envNoAdaptor).error = some ⟨ErrorCode.invalidApiType, none, true⟩ ∧
      (ImageHelper envNoAdaptor).convertInvoked = false := by
  have h := (registry_lookup_after_mapping envNoAdaptor).1
    ⟨"img-model", 2, "1024x1024", "hd"⟩ rfl rfl rfl rfl
  exact ⟨h.1, h.2.1⟩

end NewAPI
